import Mathlib

/-!
Shallow embedding of the JSON tree-building example `json_build_one.cpp`:
the builder states (`result_state`, `string_state`, `array_state`,
`object_state`) and their actions, together with a parse driver for the JSON
grammar the example runs under.  Parts of the program that live outside the
given sources (the grammar engine, the unescape helper, the value classes)
are modelled from the specification and marked as such.
-/

/-- Decoded text, as a list of Unicode code points. -/
abbrev JText := List Nat

/-- Numeric result of the C++ `stringstream >> long double` extraction:
either a finite value (modelled exactly as a rational; the specification
accepts approximate numeric decoding) or an infinity produced on overflow. -/
inductive JNumber where
  | finite (q : ℚ)
  | posInf
  | negInf
deriving DecidableEq

/-- The JSON value tree of `json_classes.hpp`.  Array elements and object
values are `shared_ptr`s in the C++ code and may be null, hence `Option`. -/
inductive JsonValue where
  | null
  | boolean (b : Bool)
  | number (n : JNumber)
  | str (s : JText)
  | array (elems : List (Option JsonValue))
  | object (entries : List (JText × Option JsonValue))

/-- `result_state`: holds the single (possibly absent) result value. -/
structure ResultState where
  result : Option JsonValue

/-- `string_state`: accumulates the unescaped string content. -/
structure StringState where
  unescaped : JText

/-- `string_state::success`: hand the decoded string up to the parent's
result slot. -/
def StringState.success (s : StringState) (parent : ResultState) : ResultState :=
  { parent with result := some (.str s.unescaped) }

/-- `array_state`: the array under construction plus the inherited pending
result slot. -/
structure ArrayState extends ResultState where
  data : List (Option JsonValue)

/-- `array_state::push_back`: move the pending slot into the array
(unconditionally; an empty slot pushes a null element) and reset the slot. -/
def ArrayState.push_back (s : ArrayState) : ArrayState :=
  { s with data := s.data ++ [s.result], result := none }

/-- `array_state::success`: commit a leftover pending value, then hand the
finished array up to the parent's result slot. -/
def ArrayState.success (s : ArrayState) (parent : ResultState) : ResultState :=
  let s' := if s.result.isSome then s.push_back else s
  { parent with result := some (.array s'.data) }

/-- Modelled from the spec: `object_json::data` and the effect of inserting
into it live in `json_classes.hpp`, which is not among the given sources; per
the specification the object is a mapping with unique keys where the last
write wins, so inserting an existing key overwrites its value in place. -/
def mapInsert : List (JText × Option JsonValue) → JText → Option JsonValue →
    List (JText × Option JsonValue)
  | [], k, v => [(k, v)]
  | (k', v') :: rest, k, v =>
    if k' = k then (k, v) :: rest else (k', v') :: mapInsert rest k v

/-- Key lookup in the object mapping. -/
def mapLookup : List (JText × Option JsonValue) → JText → Option (Option JsonValue)
  | [], _ => none
  | (k', v') :: rest, k => if k' = k then some v' else mapLookup rest k

/-- `object_state`: decoded-key buffer, the object under construction, and
the inherited pending slot for the value half of the current member. -/
structure ObjectState extends ResultState where
  unescaped : JText
  data : List (JText × Option JsonValue)

/-- `object_state::insert`: move the key buffer and pending value into the
object, then clear both. -/
def ObjectState.insert (s : ObjectState) : ObjectState :=
  { s with data := mapInsert s.data s.unescaped s.result, unescaped := [], result := none }

/-- `object_state::success`: commit a leftover member, then hand the finished
object up to the parent's result slot. -/
def ObjectState.success (s : ObjectState) (parent : ResultState) : ResultState :=
  let s' := if s.result.isSome then s.insert else s
  { parent with result := some (.object s'.data) }

/-- Numeric value of a decimal digit character. -/
def digitVal (c : Char) : Nat := c.toNat - 48

/-- Split a leading run of decimal digits off the input. -/
def takeDigits : List Char → List Char × List Char
  | [] => ([], [])
  | c :: t =>
    if c.isDigit then
      let (ds, rest) := takeDigits t
      (c :: ds, rest)
    else ([], c :: t)

/-- Value of a digit run read in base ten. -/
def natOfDigits (ds : List Char) : Nat := ds.foldl (fun a c => 10 * a + digitVal c) 0

/-- Exact rational value of a grammar-validated numeric span
(optional minus, integer part, optional fraction, optional exponent). -/
def decodeNumberQ (span : List Char) : ℚ :=
  let (neg, s1) : Bool × List Char :=
    match span with
    | '-' :: t => (true, t)
    | _ => (false, span)
  let (ip, s2) := takeDigits s1
  let (fp, s3) : List Char × List Char :=
    match s2 with
    | '.' :: t => takeDigits t
    | _ => ([], s2)
  let (eneg, eds) : Bool × List Char :=
    match s3 with
    | c :: t =>
      if c = 'e' ∨ c = 'E' then
        match t with
        | '+' :: u => (false, (takeDigits u).1)
        | '-' :: u => (true, (takeDigits u).1)
        | u => (false, (takeDigits u).1)
      else (false, [])
    | [] => (false, [])
  let m : Nat := natOfDigits (ip ++ fp)
  let e : Nat := natOfDigits eds
  let num : Nat := if eneg then m else m * 10 ^ e
  let den : Nat := if eneg then 10 ^ (fp.length + e) else 10 ^ fp.length
  let q : ℚ := mkRat (num : Int) den
  if neg then -q else q

/-- Largest finite 80-bit extended `long double`, as a numeral (the lemma
`ldblMax_eq` below checks it equals (2^64 − 1) · 2^16320). -/
def ldblMax : ℚ := (1189731495357231765021263853030970205169063322294624200440323733891737005522970722616410290336528882853545697807495577314427443153670288434198125573853743678673593200706973263201915918282961524365529510646791086614311790632169778838896134786560600399148753433211454911160088679845154866512852340149773037600009125479393966223151383622417838542743917838138717805889487540575168226347659235576974805113725649020884855222494791399377585026011773549180099796226026859508558883608159846900235645132346594476384939859276456284579661772930407806609229102715046085388087959327781622986827547830768080040150694942303411728957777100335714010559775242124057347007386251660110828379119623008469277200965153500208474470792443848545912886723000619085126472111951361467527633519562927597957250278002980795904193139603021470997035276467445530922022679656280991498232083329641241038509239184734786121921697210543484287048353408113042573002216421348917347174234800714880751002064390517234247656004721768096486107994943415703476320643558624207443504424380566136017608837478165389027809576975977286860071487028287955567141404632615832623602762896316173978484254486860609948270867968048078702511858930838546584223040908805996294594586201903766048446790926002225410530775901065760671347200125846406957030257138960983757998926954553052368560758683179223113639519468850880771872104705203957587480013143131444254943919940175753169339392366881856189129931729104252921236835159922322050998001677102784035360140829296398115122877768135706045789343535451696539561254048846447169786893211671087229088082778350518228857646062218739702851655083720992349483334435228984751232753726636066213902281264706234075352071724058665079518217303463782631353393706774901950197841690441824738063162828586857741432581165364040218402724913393320949219498422442730427019873044536620350262386957804682003601447291997123095530057206141866974852846856186514832715974481203121946751686379343096189615107330065552421485195201762858595091051839472502863871632494167613804996319791441870254302706758495192008837915169401581740046711477877201459644461175204059453504764721807975761111720846273639279600339670470037613374509553184150073796412605047923251661354841291884211340823015473304754067072818763503617332908005951896325207071673904547777129682265206225651439919376804400292380903112437912614776255964694221981375146967079446870358004392507659451618379811859392049544036114915310782251072691486979809240946772142727012404377187409216756613634938900451232351668146089322400697993176017805338191849981933008410985993938760292601390911414526003720284872132411955424282101831204216104467404621635336900583664606591156298764745525068145003932941404131495400677602951005962253022823003631473824681059648442441324864573137437595096416168048024129351876204668135636877532814675538798871771836512893947195335061885003267607354388673368002074387849657014576090349857571243045102038730494854256702479339322809110526041538528994849203991091946129912491633289917998094380337879522093131466946149705939664152375949285890960489916121944989986384837022486672249148924678410206183364627416969576307632480235587975245253737035433882960862753427740016333434055083537048507374544819754722228975281083020898682633020285259923084168054539687911418297629988964576482765287504562854924265165217750799516259669229114977788962356670956627138482018191348321687995863652637620978285070099337294396784639879024914514222742527006363942327998483976739987154418554201562244154926653014515504685489258620276085761837129763358761215382565129633538141663949516556000264159186554850057052611431952919918807954522394649627635630178580896692226406235382898535867595990647008385687123810329591926494846250768992258419305480763620215089022149220528069842018350840586938493815498909445461977893029113576516775406232278298314033473276603952231603422824717528181818844304880921321933550869873395861276073670866652375555675803171490108477320096424318780070008797346032906278943553743564448851907191616455141155761939399690767415156402826543664026760095087523945507341556135867933066031744720924446513532366647649735400851967040771103640538150073486891798364049570606189535005089840913826869535090066783324472578712196604415284924840041850932811908963634175739897166596000759487800619164094854338758520657116541072260996288150123144377944008749301944744330784388995701842710004808305012177123560622895076269042856800047718893158089358515593863176652948089031267747029662545110861548958395087796755464137944895960527975209874813839762578592105756284401759349324162148339565350189196811389091843795734703269406342890087805846940352453479398080674273236297887100867175802531561302356064878709259865288416350972529537091114317204887747405539054009425375424119317944175137064689643861517718849867010341532542385911089624710885385808688837777258648564145934262121086647588489260031762345960769508849149662444156604419552086811989770240 : ℚ)

/-- The `ss >> v` extraction in `value_action<number>::apply`: the exact
decimal value of the span, with C++11 `num_get` overflow behaviour — a value
beyond the `long double` range is extracted as the corresponding infinity
(the failbit this sets is ignored by the C++ code).  Rounding to `long
double` precision is elided: the specification accepts approximate numeric
decoding. -/
def extractLongDouble (span : List Char) : JNumber :=
  let q := decodeNumberQ span
  if q > ldblMax then .posInf
  else if q < -ldblMax then .negInf
  else .finite q

/-- `value_action<number>::apply`: convert the matched span and store it in
the result slot; the function has no failure path. -/
def numberApply (span : List Char) (st : ResultState) : ResultState :=
  { st with result := some (.number (extractLongDouble span)) }

/-- Error kinds surfaced by the parse: grammar-level rejection and the two
string-escape failures the specification names. -/
inductive ErrKind where
  | malformed
  | invalidEscape
  | invalidSurrogate

/-- A positioned parse error: the kind and the number of input characters
remaining at the failure point (the position is the input length minus
`rest`). -/
structure PErr where
  kind : ErrKind
  rest : Nat

/-- Value of a hexadecimal digit character, if it is one. -/
def hexVal (c : Char) : Option Nat :=
  if '0' ≤ c ∧ c ≤ '9' then some (c.toNat - 48)
  else if 'a' ≤ c ∧ c ≤ 'f' then some (c.toNat - 87)
  else if 'A' ≤ c ∧ c ≤ 'F' then some (c.toNat - 55)
  else none

/-- Read four hexadecimal digits off the input. -/
def readHex4 : List Char → Option (Nat × List Char)
  | a :: b :: c :: d :: rest =>
    match hexVal a, hexVal b, hexVal c, hexVal d with
    | some x, some y, some z, some w => some ((((x * 16 + y) * 16 + z) * 16 + w), rest)
    | _, _, _, _ => none
  | _ => none

/-- Decoded code point of a one-character escape, if recognized. -/
def simpleEscape (c : Char) : Option Nat :=
  if c = '\"' then some 34
  else if c = '\\' then some 92
  else if c = '/' then some 47
  else if c = 'b' then some 8
  else if c = 'f' then some 12
  else if c = 'n' then some 10
  else if c = 'r' then some 13
  else if c = 't' then some 9
  else none

/-- Modelled from the spec: the escape decoder of `json_unescape.hpp` (not
among the given sources).  Decodes string content up to, and not consuming,
the closing quote: plain characters are copied, the eight simple escapes and
`\uXXXX` (with UTF-16 surrogate pairing) are decoded; an unrecognized escape
character is an `invalidEscape` error and a lone or unpaired surrogate is an
`invalidSurrogate` error.  Decoded code points are appended to `acc`, the
buffer of the state that is current at the rule. -/
def unescapeContent : Nat → List Char → JText → Except PErr (JText × List Char)
  | 0, input, _ => .error ⟨.malformed, input.length⟩
  | fuel + 1, input, acc =>
    match input with
    | [] => .error ⟨.malformed, 0⟩
    | '\"' :: rest => .ok (acc, '\"' :: rest)
    | '\\' :: 'u' :: r1 =>
      match readHex4 r1 with
      | none => .error ⟨.malformed, r1.length⟩
      | some (n, r2) =>
        if 0xD800 ≤ n ∧ n ≤ 0xDBFF then
          match r2 with
          | '\\' :: 'u' :: r3 =>
            match readHex4 r3 with
            | none => .error ⟨.malformed, r3.length⟩
            | some (m, r4) =>
              if 0xDC00 ≤ m ∧ m ≤ 0xDFFF then
                unescapeContent fuel r4
                  (acc ++ [0x10000 + (n - 0xD800) * 0x400 + (m - 0xDC00)])
              else .error ⟨.invalidSurrogate, r4.length⟩
          | _ => .error ⟨.invalidSurrogate, r2.length⟩
        else if 0xDC00 ≤ n ∧ n ≤ 0xDFFF then
          .error ⟨.invalidSurrogate, r2.length⟩
        else
          unescapeContent fuel r2 (acc ++ [n])
    | '\\' :: c :: rest =>
      match simpleEscape c with
      | some code => unescapeContent fuel rest (acc ++ [code])
      | none => .error ⟨.invalidEscape, rest.length⟩
    | c :: rest =>
      if 0x20 ≤ c.toNat then unescapeContent fuel rest (acc ++ [c.toNat])
      else .error ⟨.malformed, rest.length⟩

/-- JSON insignificant whitespace. -/
def isWsChar (c : Char) : Bool := c == ' ' || c == '\t' || c == '\n' || c == '\r'

/-- Drop leading whitespace (the `pad`/`padr` combinators of the grammar). -/
def skipWs : List Char → List Char
  | [] => []
  | c :: cs => if isWsChar c then skipWs cs else c :: cs

/-- Exponent part of the numeric grammar: `e`/`E`, an optional sign, and a
mandatory digit run. -/
def matchNumberExp (pre : List Char) (s : List Char) : Except PErr (List Char × List Char) :=
  match s with
  | c :: u =>
    if c = 'e' ∨ c = 'E' then
      let (es, u1) : List Char × List Char :=
        match u with
        | '+' :: w => (['+'], w)
        | '-' :: w => (['-'], w)
        | _ => ([], u)
      match takeDigits u1 with
      | ([], _) => .error ⟨.malformed, u1.length⟩
      | (ds, s4) => .ok (pre ++ c :: es ++ ds, s4)
    else .ok (pre, c :: u)
  | [] => .ok (pre, [])

/-- Modelled from the spec: the `number` production of the JSON grammar
(`contrib/json.hpp`, not among the given sources): optional minus, an
integer part that is `0` or a nonzero-led digit run, an optional fraction
that must contain digits, an optional exponent that must contain digits.
Returns the matched span and the rest of the input. -/
def matchNumberSpan (input : List Char) : Except PErr (List Char × List Char) :=
  let (sgn, s1) : List Char × List Char :=
    match input with
    | '-' :: t => (['-'], t)
    | _ => ([], input)
  match s1 with
  | [] => .error ⟨.malformed, 0⟩
  | c :: t =>
    if c.isDigit then
      let (ip, s2) : List Char × List Char :=
        if c = '0' then ([c], t)
        else (c :: (takeDigits t).1, (takeDigits t).2)
      match s2 with
      | '.' :: u =>
        match takeDigits u with
        | ([], _) => .error ⟨.malformed, u.length⟩
        | (fs, s3) => matchNumberExp (sgn ++ ip ++ '.' :: fs) s3
      | _ => matchNumberExp (sgn ++ ip) s2
    else .error ⟨.malformed, (c :: t).length⟩

mutual

/-- Modelled from the spec: the parse driver for the `value` rule of the
JSON grammar (`contrib/json.hpp` and the `change_state`/`change_action`
glue are not among the given sources) — dispatch on the concrete
alternative, run the matching builder, and on success hand the finished
value into the current state's result slot, then consume padding
whitespace. -/
def parseValue : Nat → List Char → ResultState → Except PErr (ResultState × List Char)
  | 0, input, _ => .error ⟨.malformed, input.length⟩
  | fuel + 1, input, st =>
    match input with
    | '\"' :: t =>
      match unescapeContent (t.length + 1) t [] with
      | .error e => .error e
      | .ok (acc, r1) =>
        match r1 with
        | '\"' :: t2 => .ok (StringState.success ⟨acc⟩ st, skipWs t2)
        | _ => .error ⟨.malformed, r1.length⟩
    | '\x7b' :: t =>
      match parseObjectContent fuel (skipWs t) ⟨⟨none⟩, [], []⟩ with
      | .error e => .error e
      | .ok (ost, r1) =>
        match r1 with
        | '\x7d' :: t2 => .ok (ObjectState.success ost st, skipWs t2)
        | _ => .error ⟨.malformed, r1.length⟩
    | '[' :: t =>
      match parseArrayContent fuel (skipWs t) ⟨⟨none⟩, []⟩ with
      | .error e => .error e
      | .ok (ast, r1) =>
        match r1 with
        | ']' :: t2 => .ok (ArrayState.success ast st, skipWs t2)
        | _ => .error ⟨.malformed, r1.length⟩
    | 't' :: 'r' :: 'u' :: 'e' :: t => .ok ({ st with result := some (.boolean true) }, skipWs t)
    | 'f' :: 'a' :: 'l' :: 's' :: 'e' :: t =>
      .ok ({ st with result := some (.boolean false) }, skipWs t)
    | 'n' :: 'u' :: 'l' :: 'l' :: t => .ok ({ st with result := some .null }, skipWs t)
    | _ =>
      match matchNumberSpan input with
      | .error e => .error e
      | .ok (span, rest) => .ok (numberApply span st, skipWs rest)

/-- Modelled from the spec: `array::content` — either immediately closed,
or a separator-committed element list. -/
def parseArrayContent : Nat → List Char → ArrayState → Except PErr (ArrayState × List Char)
  | 0, input, _ => .error ⟨.malformed, input.length⟩
  | fuel + 1, input, ast =>
    match input with
    | ']' :: rest => .ok (ast, ']' :: rest)
    | _ => parseElems fuel input ast

/-- Modelled from the spec: the element list of an array — parse a value
into the pending slot; a following comma fires
`array_action<value_separator>::apply0` (`push_back`) and requires another
element. -/
def parseElems : Nat → List Char → ArrayState → Except PErr (ArrayState × List Char)
  | 0, input, _ => .error ⟨.malformed, input.length⟩
  | fuel + 1, input, ast =>
    match parseValue fuel input ⟨ast.result⟩ with
    | .error e => .error e
    | .ok (rs, r1) =>
      let ast1 : ArrayState := { ast with result := rs.result }
      match r1 with
      | ',' :: t => parseElems fuel (skipWs t) ast1.push_back
      | _ => .ok (ast1, r1)

/-- Modelled from the spec: `object::content` — either immediately closed,
or a separator-committed member list. -/
def parseObjectContent : Nat → List Char → ObjectState → Except PErr (ObjectState × List Char)
  | 0, input, _ => .error ⟨.malformed, input.length⟩
  | fuel + 1, input, ost =>
    match input with
    | '\x7d' :: rest => .ok (ost, '\x7d' :: rest)
    | _ => parseMembers fuel input ost

/-- Modelled from the spec: the member list of an object — decode the key
into the key buffer (the key rules run with the object state current, so
the unescape actions append to `object_state::unescaped`), require the name
separator and a value; a following comma fires
`object_action<value_separator>::apply0` (`insert`) and requires another
member. -/
def parseMembers : Nat → List Char → ObjectState → Except PErr (ObjectState × List Char)
  | 0, input, _ => .error ⟨.malformed, input.length⟩
  | fuel + 1, input, ost =>
    match input with
    | '\"' :: t =>
      match unescapeContent (t.length + 1) t ost.unescaped with
      | .error e => .error e
      | .ok (acc, r1) =>
        match r1 with
        | '\"' :: t2 =>
          let ost1 : ObjectState := { ost with unescaped := acc }
          match skipWs t2 with
          | ':' :: t4 =>
            match parseValue fuel (skipWs t4) ⟨ost1.result⟩ with
            | .error e => .error e
            | .ok (rs, r6) =>
              let ost2 : ObjectState := { ost1 with result := rs.result }
              match r6 with
              | ',' :: t7 => parseMembers fuel (skipWs t7) ost2.insert
              | _ => .ok (ost2, r6)
          | r3 => .error ⟨.malformed, r3.length⟩
        | _ => .error ⟨.malformed, r1.length⟩
    | _ => .error ⟨.malformed, input.length⟩

end

/-- `grammar = must<text, eof>` run as in `main`: skip leading whitespace,
parse one value into a fresh `result_state`, and require end of input. -/
def parseJson (s : String) : Except PErr ResultState :=
  match parseValue (2 * s.length + 4) (skipWs s.toList) ⟨none⟩ with
  | .error e => .error e
  | .ok (st, []) => .ok st
  | .ok (_, c :: r) => .error ⟨.malformed, (c :: r).length⟩

/-- The root value a successful run leaves in `result_state::result`;
`none` when the parse raised an error. -/
def parseDocument (s : String) : Option JsonValue :=
  match parseJson s with
  | .ok st => st.result
  | .error _ => none

/-- The loop of `main`: one fresh `result_state` per input file. -/
def processFiles : List String → List (Option JsonValue)
  | [] => []
  | f :: fs => parseDocument f :: processFiles fs

/-- Inserting a key always makes it map to the inserted value: overwrite in
place when present, append when absent. -/
theorem mapLookup_mapInsert (m : List (JText × Option JsonValue)) (k : JText)
    (v : Option JsonValue) : mapLookup (mapInsert m k v) k = some v := by
  induction m with
  | nil => simp [mapInsert, mapLookup]
  | cons p rest ih =>
    obtain ⟨k', v'⟩ := p
    by_cases h : k' = k
    · simp [mapInsert, h, mapLookup]
    · simp [mapInsert, h, mapLookup, ih]

/-- The file loop is a plain map: each file's result is computed from a
fresh `result_state`, independent of the other files. -/
theorem processFiles_eq_map (files : List String) :
    processFiles files = files.map parseDocument := by
  induction files with
  | nil => rfl
  | cons f fs ih => simp [processFiles, ih]

set_option maxHeartbeats 4000000 in
/-- Every success path of the `value` rule writes a value into the handed-in
state's result slot. -/
theorem parseValue_ok_isSome (fuel : Nat) (input : List Char) (st out : ResultState)
    (rest : List Char) (h : parseValue fuel input st = .ok (out, rest)) :
    out.result.isSome = true := by
  rw [parseValue.eq_def] at h
  repeat' split at h
  all_goals first
    | exact Except.noConfusion h
    | (injection h with h1; injection h1 with h2 h3; subst h2;
       simp [StringState.success, ArrayState.success, ObjectState.success, numberApply])

/-- The literal `1e5000` exceeds the `long double` range, so its extraction
produces positive infinity. -/
theorem extractLongDouble_overflow :
    extractLongDouble ['1', 'e', '5', '0', '0', '0'] = .posInf := by
  have hq : decodeNumberQ ['1', 'e', '5', '0', '0', '0'] = ((10 ^ 5000 : Nat) : ℚ) := by
    simp [decodeNumberQ, takeDigits, natOfDigits, digitVal]
  have hgt : decodeNumberQ ['1', 'e', '5', '0', '0', '0'] > ldblMax := by
    rw [hq, ldblMax]; norm_num
  rw [extractLongDouble, if_pos hgt]

/-- The numeral used for `ldblMax` is (2^64 − 1) · 2^16320, the largest
finite 80-bit extended `long double`. -/
theorem ldblMax_eq : (ldblMax : ℚ) = (((2 ^ 64 - 1) * 2 ^ 16320 : Nat) : ℚ) := by
  rw [ldblMax]; norm_num

/-- Claim C1: inserting a key that is already present overwrites its value
in place (last write wins), and the JSON text with the repeated key `"a"`
parses successfully to an object whose `"a"` (code point 97) holds the value
of the last occurrence, the number 2. -/
theorem claim_C1 :
    (∀ (m : List (JText × Option JsonValue)) (k : JText) (v : Option JsonValue),
      mapLookup (mapInsert m k v) k = some v) ∧
    parseDocument "\x7b\"a\":1,\"a\":2\x7d" =
      some (.object [([97], some (.number (.finite 2)))]) :=
  ⟨mapLookup_mapInsert, rfl⟩

/-- Claim C2 counterexample: the grammar-accepted literal `1e5000` overflows
the `long double` conversion, yet the parse succeeds (an `ok` result, no
error of any kind) and the stored number is an infinity — the builder does
not fail with a NumberOverflow error. -/
theorem claim_C2_counterexample :
    parseDocument "1e5000" = some (.number .posInf) ∧
    parseJson "1e5000" = .ok ⟨some (.number .posInf)⟩ := by
  have h0 : parseDocument "1e5000" =
      some (.number (extractLongDouble ['1', 'e', '5', '0', '0', '0'])) := rfl
  have h1 : parseJson "1e5000" =
      .ok ⟨some (.number (extractLongDouble ['1', 'e', '5', '0', '0', '0']))⟩ := rfl
  constructor
  · rw [h0, extractLongDouble_overflow]
  · rw [h1, extractLongDouble_overflow]

/-- Claim C2 (amended): the number builder converts the matched span and
stores the resulting value unconditionally — there is no error path; the
in-range literals `-0`, `1e10`, `3.14`, `0.0` yield finite values, while an
overflowing literal is stored as an infinity rather than rejected. -/
theorem claim_C2 :
    (∀ (span : List Char) (st : ResultState),
      numberApply span st = { st with result := some (.number (extractLongDouble span)) }) ∧
    parseDocument "-0" = some (.number (.finite 0)) ∧
    parseDocument "1e10" = some (.number (.finite 10000000000)) ∧
    parseDocument "3.14" = some (.number (.finite (mkRat 157 50))) ∧
    parseDocument "0.0" = some (.number (.finite 0)) ∧
    parseDocument "1e5000" = some (.number (extractLongDouble ['1', 'e', '5', '0', '0', '0'])) ∧
    extractLongDouble ['1', 'e', '5', '0', '0', '0'] = JNumber.posInf :=
  ⟨fun _ _ => rfl, rfl, rfl, rfl, rfl, rfl, extractLongDouble_overflow⟩

/-- Claim C3: when a composite rule closes with an occupied pending slot,
the slot is committed exactly once — the array gains exactly the pending
element at its end, the object gains exactly the pending member — and the
finished composite value is written into the parent's pending slot. -/
theorem claim_C3 :
    (∀ (s : ArrayState) (p : ResultState) (v : JsonValue), s.result = some v →
      ArrayState.success s p = { p with result := some (.array (s.data ++ [some v])) }) ∧
    (∀ (s : ObjectState) (p : ResultState) (v : JsonValue), s.result = some v →
      ObjectState.success s p =
        { p with result := some (.object (mapInsert s.data s.unescaped (some v))) }) := by
  constructor
  · intro s p v h
    simp [ArrayState.success, ArrayState.push_back, h]
  · intro s p v h
    simp [ObjectState.success, ObjectState.insert, h]

/-- Claim C3 witness: closing an array with a pending `null` after one
committed element, and an object with a pending `null` under key `"a"`. -/
theorem claim_C3_witness :
    ArrayState.success ⟨⟨some .null⟩, [some (.boolean true)]⟩ ⟨none⟩ =
      { result := some (.array [some (.boolean true), some .null]) } ∧
    ObjectState.success ⟨⟨some .null⟩, [97], []⟩ ⟨none⟩ =
      { result := some (.object [([97], some .null)]) } :=
  ⟨claim_C3.1 _ _ _ rfl, claim_C3.2 _ _ _ rfl⟩

/-- Claim C4: the value-separator commit empties the pending slot — the
array appends the pending value at the end of its sequence, and the object
inserts it under the decoded key and clears the key buffer. -/
theorem claim_C4 :
    (∀ (s : ArrayState) (v : JsonValue), s.result = some v →
      s.push_back = { s with data := s.data ++ [some v], result := none }) ∧
    (∀ (s : ObjectState) (v : JsonValue), s.result = some v →
      s.insert = { s with data := mapInsert s.data s.unescaped (some v),
                          unescaped := [], result := none }) := by
  constructor
  · intro s v h
    simp [ArrayState.push_back, h]
  · intro s v h
    simp [ObjectState.insert, h]

/-- Claim C4 witness: committing a pending boolean into an empty array and
a pending boolean under key `"b"` into an empty object. -/
theorem claim_C4_witness :
    ArrayState.push_back ⟨⟨some (.boolean true)⟩, []⟩ =
      { result := none, data := [some (.boolean true)] } ∧
    ObjectState.insert ⟨⟨some (.boolean false)⟩, [98], []⟩ =
      { result := none, unescaped := [], data := [([98], some (.boolean false))] } :=
  ⟨claim_C4.1 _ _ rfl, claim_C4.2 _ _ rfl⟩

/-- Claim C5: the empty array and empty object parse to empty composites,
an immediately-closed content rule returns its builder state untouched (zero
commits, pending slot never set), and sibling nesting produces no pending
leakage. -/
theorem claim_C5 :
    parseDocument "[]" = some (.array []) ∧
    parseDocument "\x7b\x7d" = some (.object []) ∧
    parseDocument "[[],[\x7b\x7d]]" =
      some (.array [some (.array []), some (.array [some (.object [])])]) ∧
    (∀ (fuel : Nat) (rest : List Char) (ast : ArrayState),
      parseArrayContent (fuel + 1) (']' :: rest) ast = .ok (ast, ']' :: rest)) ∧
    (∀ (fuel : Nat) (rest : List Char) (ost : ObjectState),
      parseObjectContent (fuel + 1) ('\x7d' :: rest) ost = .ok (ost, '\x7d' :: rest)) :=
  ⟨rfl, rfl, rfl, fun _ _ _ => rfl, fun _ _ _ => rfl⟩

/-- Claim C6: whenever the parse raises an error, no root value is exposed;
concretely, the trailing comma nested two arrays deep aborts the whole parse
with a positioned error and yields no root value. -/
theorem claim_C6 :
    (∀ (s : String) (e : PErr), parseJson s = .error e → parseDocument s = none) ∧
    parseJson "[[\"a\",]]" = .error ⟨.malformed, 2⟩ ∧
    parseDocument "[[\"a\",]]" = none := by
  refine ⟨?_, rfl, rfl⟩
  intro s e h
  simp [parseDocument, h]

/-- Claim C6 witness: the unterminated object text produces no root value. -/
theorem claim_C6_witness : parseDocument "\x7b" = none :=
  claim_C6.1 "\x7b" ⟨.malformed, 0⟩ rfl

/-- Claim C7: the escape decoder maps each recognized escape to its decoded
character — `\u0041` to `A`, `\n` to a newline, the eight simple escapes to
their code points, the surrogate pair `\ud83d\ude00` to the single code
point 128512 — while an unrecognized escape fails with `invalidEscape` and a
lone or unpaired surrogate fails with `invalidSurrogate`. -/
theorem claim_C7 :
    unescapeContent 8 ('\\' :: 'u' :: '0' :: '0' :: '4' :: '1' :: '\"' :: []) [] =
      .ok ([65], ['\"']) ∧
    unescapeContent 3 ('\\' :: 'n' :: '\"' :: []) [] = .ok ([10], ['\"']) ∧
    (simpleEscape '\"' = some 34 ∧ simpleEscape '\\' = some 92 ∧ simpleEscape '/' = some 47 ∧
      simpleEscape 'b' = some 8 ∧ simpleEscape 'f' = some 12 ∧ simpleEscape 'n' = some 10 ∧
      simpleEscape 'r' = some 13 ∧ simpleEscape 't' = some 9) ∧
    unescapeContent 14 ("\\ud83d\\ude00\"").toList [] = .ok ([128512], ['\"']) ∧
    parseDocument "\"\\u0041\"" = some (.str [65]) ∧
    parseDocument "\"\\n\"" = some (.str [10]) ∧
    unescapeContent 8 ("\\ud83d\"").toList [] = .error ⟨.invalidSurrogate, 1⟩ ∧
    unescapeContent 8 ("\\udc00\"").toList [] = .error ⟨.invalidSurrogate, 1⟩ ∧
    unescapeContent 9 ("\\ud83d\\n\"").toList [] = .error ⟨.invalidSurrogate, 3⟩ ∧
    unescapeContent 4 ("\\x\"").toList [] = .error ⟨.invalidEscape, 1⟩ :=
  ⟨rfl, rfl, ⟨rfl, rfl, rfl, rfl, rfl, rfl, rfl, rfl⟩, rfl, rfl, rfl, rfl, rfl, rfl, rfl⟩

/-- Claim C8: the file loop gives each input its own fresh state (it is a
plain map of the one-file parse over the inputs), so equal input texts at
any two positions produce structurally equal result trees. -/
theorem claim_C8 :
    (∀ files : List String, processFiles files = files.map parseDocument) ∧
    (∀ (files : List String) (i j : Nat), files[i]? = files[j]? →
      (processFiles files)[i]? = (processFiles files)[j]?) := by
  refine ⟨processFiles_eq_map, ?_⟩
  intro files i j h
  rw [processFiles_eq_map, List.getElem?_map, List.getElem?_map, h]

/-- Claim C8 witness: the repeated text `[]` at positions 0 and 2 of the
file list yields equal results. -/
theorem claim_C8_witness :
    (processFiles ["[]", "\x7b\x7d", "[]"])[0]? = (processFiles ["[]", "\x7b\x7d", "[]"])[2]? :=
  claim_C8.2 ["[]", "\x7b\x7d", "[]"] 0 2 rfl

/-- Claim C9: a parse that returns normally always leaves a non-null root
value in the result holder (the assertion after the parse call cannot
fire), and a root value exists exactly when no error was raised. -/
theorem claim_C9 :
    (∀ (s : String) (r : ResultState), parseJson s = .ok r → r.result.isSome = true) ∧
    (∀ s : String, (∃ v, parseDocument s = some v) ↔ ∃ r, parseJson s = .ok r) := by
  have h1 : ∀ (s : String) (r : ResultState), parseJson s = .ok r → r.result.isSome = true := by
    intro s r h
    rw [parseJson.eq_def] at h
    split at h
    · exact Except.noConfusion h
    · rename_i st heq
      injection h with h2
      subst h2
      exact parseValue_ok_isSome _ _ _ _ _ heq
    · exact Except.noConfusion h
  refine ⟨h1, fun s => ⟨?_, ?_⟩⟩
  · rintro ⟨v, hv⟩
    cases hj : parseJson s with
    | error e => simp [parseDocument, hj] at hv
    | ok r => exact ⟨r, rfl⟩
  · rintro ⟨r, hr⟩
    obtain ⟨v, hv⟩ := Option.isSome_iff_exists.mp (h1 s r hr)
    exact ⟨v, by simp [parseDocument, hr, hv]⟩

/-- Claim C9 witness: the state a successful parse of `null` returns holds
a value. -/
theorem claim_C9_witness : (⟨some .null⟩ : ResultState).result.isSome = true :=
  claim_C9.1 "null" ⟨some .null⟩ rfl

/-- Claim C10: a value-separator commit on an empty pending slot appends a
null element to the array — the prior elements are untouched (nothing is
re-committed) and no error is raised, as `push_back` is total. -/
theorem claim_C10 :
    ∀ s : ArrayState, s.result = none →
      s.push_back = { s with data := s.data ++ [none], result := none } := by
  intro s h
  simp [ArrayState.push_back, h]

/-- Claim C10 witness: a commit on an empty slot after one committed
element appends a null element. -/
theorem claim_C10_witness :
    ArrayState.push_back ⟨⟨none⟩, [some .null]⟩ =
      { result := none, data := [some .null, none] } :=
  claim_C10 ⟨⟨none⟩, [some .null]⟩ rfl
